import Mathlib

/-!
A shallow embedding of `src/video_display.c` (the Jakopter video display
module) and proofs about its frame-submission protocol.

Modelling conventions:
* The module-level mutable variables (`current_width`, `current_height`,
  `initialized`, `display_fdbk`, `frameTex`, and the SDL window/renderer
  handles) form the record `SysState`.
* Every SDL / pthread call whose outcome the C code branches on is given a
  Boolean oracle parameter (`true` = the call succeeds).
* Each modelled function also returns the ordered list of observable
  actions it performs (`Action`): mutex lock/unlock, reads and writes of
  the cross-thread shared variables, event-queue pushes, condition
  signals, SDL resource acquisition/release, texture updates and redraws.
  The action lists follow the C statement order line by line.
* The blocking rendezvous (push an event, then wait on the condition
  variable until `display_fdbk` is not `FDBK_NONE`) is modelled by
  running the renderer's handling of the pushed event at the blocking
  point.  This is the behaviour whenever the renderer thread is running;
  if it is not, the C code blocks forever (the acknowledged open risk of
  the design), which is outside the modelled executions.
-/

namespace VideoDisplay

/-- `feedback_msg` (video_display.c lines 12-14): the tri-state feedback
slot the display thread uses to report an operation's outcome. -/
inductive feedback_msg where
  | FDBK_NONE
  | FDBK_OK
  | FDBK_FAIL
  deriving DecidableEq, Repr

/-- Observable actions of the submission API and the display thread, in C
statement order.  `readInit`/`writeInit` access `initialized`,
`readSize`/`writeSize` access `current_width`/`current_height`,
`readFdbk`/`writeFdbk` access `display_fdbk`.  `signal` is
`pthread_cond_signal` and carries the value of `display_fdbk` at the
moment of the call. -/
inductive Action where
  | lock
  | unlock
  | readInit
  | writeInit
  | readSize
  | writeSize
  | readFdbk
  | writeFdbk (m : feedback_msg)
  | signal (m : feedback_msg)
  | pushFrame (ptr : Nat) (w h : Int)
  | pushQuit
  | spawnThread (ok : Bool)
  | sdlInitCall (ok : Bool)
  | createWindow (w h : Int) (ok : Bool)
  | createRenderer (ok : Bool)
  | registerEvents (ok : Bool)
  | setWindowSize (w h : Int)
  | destroyTexture
  | createTexture (w h : Int) (ok : Bool)
  | updateTexture (ptr : Nat) (pitch : Int) (ok : Bool)
  | renderClear
  | renderCopy
  | renderPresent
  | destroyRenderer
  | destroyWindow
  | sdlQuitCall
  | videoSetStopped
  | threadExit
  deriving DecidableEq, Repr

/-- The module-level mutable state of video_display.c: the shared
variables (lines 38, 42, 49) plus the renderer-thread-private SDL
handles (lines 18-26) and the stop flag set through `video_set_stopped`
(declared in video.h). `frameTex` records the texture and its size,
`none` standing for the NULL pointer. -/
structure SysState where
  current_width : Int
  current_height : Int
  initialized : Bool
  display_fdbk : feedback_msg
  frameTex : Option (Int × Int)
  winOpen : Bool
  rendererOpen : Bool
  videoStopped : Bool
  deriving DecidableEq, Repr

/-- Outcomes of the four fallible calls made by `video_display_init`
(SDL_Init, SDL_CreateWindow, SDL_CreateRenderer, SDL_RegisterEvents). -/
structure InitEnv where
  sdlInitOk : Bool
  createWindowOk : Bool
  createRendererOk : Bool
  registerEventsOk : Bool
  deriving DecidableEq, Repr

/-- Result of a C function returning `int`, together with the new state
and the trace of actions performed. -/
structure RetOut where
  ret : Int
  st : SysState
  tr : List Action
  deriving DecidableEq, Repr

/-- Result of a code fragment that may set the thread's local `stopped`
flag (video_display_thread lines 131, 138, 143, 158, 168, 176, 186, 190). -/
structure StepOut where
  stopped : Bool
  st : SysState
  tr : List Action
  deriving DecidableEq, Repr

/-- State and trace of a fragment returning nothing. -/
structure ExitOut where
  st : SysState
  tr : List Action
  deriving DecidableEq, Repr

/-- Events delivered to the display thread's wait loop (lines 156-191).
`frame` carries the frame pointer and size together with the oracle
outcomes of the SDL calls made while handling it (`SDL_CreateTexture`
during a resize, `SDL_UpdateTexture` for the upload).  `quit` is the
custom `event_quit`, `externalClose` is `SDL_QUIT`, `waitFail` models
`SDL_WaitEvent` returning an error, and `other` is any SDL event the
loop does not recognize. -/
inductive DisplayEvent where
  | frame (createTextureOk updateTextureOk : Bool) (ptr : Nat) (w h : Int)
  | quit
  | externalClose
  | waitFail
  | other
  deriving DecidableEq, Repr

/-- Modelled from the spec: `video_set_stopped` is declared in video.h and
defined outside src/; per the spec it "notifies the session that it
should consider itself stopped (sets a stop-requested flag observable by
the submission API)". -/
def video_set_stopped (st : SysState) : SysState :=
  { st with videoStopped := true }

/-- `video_display_init` (lines 59-88): SDL_Init, create the window and
renderer, register the two custom event types.  Returns 0 on success,
-1 on the first failure. -/
def video_display_init (env : InitEnv) (width height : Int) (st : SysState) : RetOut :=
  if env.sdlInitOk then
    if env.createWindowOk then
      let st1 := { st with winOpen := true }
      if env.createRendererOk then
        let st2 := { st1 with rendererOpen := true }
        if env.registerEventsOk then
          { ret := 0, st := st2,
            tr := [.sdlInitCall true, .createWindow width height true,
                   .createRenderer true, .registerEvents true] }
        else
          { ret := -1, st := st2,
            tr := [.sdlInitCall true, .createWindow width height true,
                   .createRenderer true, .registerEvents false] }
      else
        { ret := -1, st := st1,
          tr := [.sdlInitCall true, .createWindow width height true,
                 .createRenderer false] }
    else
      { ret := -1, st := st,
        tr := [.sdlInitCall true, .createWindow width height false] }
  else
    { ret := -1, st := st, tr := [.sdlInitCall false] }

/-- `video_display_set_size` (lines 94-106): set the window size, destroy
the old texture and create a new one of size `w × h`; on success the
parameters become the current size.  On failure `frameTex` is NULL and
the current size is left unchanged. -/
def video_display_set_size (createTextureOk : Bool) (w h : Int) (st : SysState) : RetOut :=
  if createTextureOk then
    { ret := 0,
      st := { st with frameTex := some (w, h), current_width := w, current_height := h },
      tr := [.setWindowSize w h, .destroyTexture, .createTexture w h true, .writeSize] }
  else
    { ret := -1, st := { st with frameTex := none },
      tr := [.setWindowSize w h, .destroyTexture, .createTexture w h false] }

/-- `video_display_clean` (lines 111-117): release the SDL resources —
texture, renderer, window, then the SDL subsystem. -/
def video_display_clean (st : SysState) : ExitOut :=
  { st := { st with frameTex := none, rendererOpen := false, winOpen := false },
    tr := [.destroyTexture, .destroyRenderer, .destroyWindow, .sdlQuitCall] }

/-- End of the display thread (lines 198-201): clean the SDL state, clear
`initialized`, and exit. -/
def thread_exit (st : SysState) : ExitOut :=
  let c := video_display_clean st
  { st := { c.st with initialized := false },
    tr := c.tr ++ [.writeInit, .threadExit] }

/-- Start-up phase of `video_display_thread` (lines 135-152): under the
feedback mutex, initialize SDL at the current size and build the initial
texture; publish FDBK_FAIL and stop, or mark `initialized`, publish
FDBK_OK, and proceed to the event loop.  Either way signal exactly once. -/
def video_display_startup (env : InitEnv) (sizeOk : Bool) (st : SysState) : StepOut :=
  let i := video_display_init env st.current_width st.current_height st
  if i.ret < 0 then
    { stopped := true, st := { i.st with display_fdbk := .FDBK_FAIL },
      tr := [.lock, .readSize] ++ i.tr ++
            [.writeFdbk .FDBK_FAIL, .signal .FDBK_FAIL, .unlock] }
  else
    let s := video_display_set_size sizeOk i.st.current_width i.st.current_height i.st
    if s.ret < 0 then
      { stopped := true, st := { s.st with display_fdbk := .FDBK_FAIL },
        tr := [.lock, .readSize] ++ i.tr ++ [.readSize] ++ s.tr ++
              [.writeFdbk .FDBK_FAIL, .signal .FDBK_FAIL, .unlock] }
    else
      { stopped := false,
        st := { s.st with initialized := true, display_fdbk := .FDBK_OK },
        tr := [.lock, .readSize] ++ i.tr ++ [.readSize] ++ s.tr ++
              [.writeInit, .writeFdbk .FDBK_OK, .signal .FDBK_OK, .unlock] }

/-- Upload half of the frame-event handler (lines 173-181): if not
stopped, `SDL_UpdateTexture` with pitch `current_width`; set
FDBK_FAIL/FDBK_OK accordingly, then signal and unlock. -/
def upload_frame (updateTextureOk : Bool) (ptr : Nat) (pre : List Action)
    (st : SysState) : StepOut :=
  if updateTextureOk then
    { stopped := false, st := { st with display_fdbk := .FDBK_OK },
      tr := pre ++ [.readSize, .updateTexture ptr st.current_width true,
                    .writeFdbk .FDBK_OK, .signal .FDBK_OK, .unlock] }
  else
    { stopped := true, st := { st with display_fdbk := .FDBK_FAIL },
      tr := pre ++ [.readSize, .updateTexture ptr st.current_width false,
                    .writeFdbk .FDBK_FAIL, .signal .FDBK_FAIL, .unlock] }

/-- Frame-event branch of the display thread's loop (lines 161-184):
under the feedback mutex, resize if the event's size differs from the
current size (on failure set FDBK_FAIL, skip the upload, and stop),
then upload the pixel data (on failure set FDBK_FAIL and stop, else set
FDBK_OK); in every case signal once and unlock. -/
def handle_frame (createTextureOk updateTextureOk : Bool) (ptr : Nat) (w h : Int)
    (st : SysState) : StepOut :=
  if w ≠ st.current_width ∨ h ≠ st.current_height then
    let s := video_display_set_size createTextureOk w h st
    if s.ret < 0 then
      { stopped := true, st := { s.st with display_fdbk := .FDBK_FAIL },
        tr := [.lock, .readSize] ++ s.tr ++
              [.writeFdbk .FDBK_FAIL, .signal .FDBK_FAIL, .unlock] }
    else
      upload_frame updateTextureOk ptr ([.lock, .readSize] ++ s.tr) s.st
  else
    upload_frame updateTextureOk ptr [.lock, .readSize] st

/-- One iteration of the display thread's main loop (lines 155-197):
handle the received event, then unconditionally redraw (clear, copy,
present). -/
def loop_iter (ev : DisplayEvent) (st : SysState) : StepOut :=
  let s : StepOut :=
    match ev with
    | .frame cOk uOk ptr w h => handle_frame cOk uOk ptr w h st
    | .quit => { stopped := true, st := st, tr := [] }
    | .externalClose =>
        { stopped := true, st := video_set_stopped st, tr := [.videoSetStopped] }
    | .waitFail => { stopped := true, st := st, tr := [] }
    | .other => { stopped := false, st := st, tr := [] }
  { stopped := s.stopped, st := s.st,
    tr := s.tr ++ [.renderClear, .renderCopy, .renderPresent] }

/-- Result of running the event loop on a queue of events: final state,
trace, number of events processed, and whether the loop exited. -/
structure LoopOut where
  stopped : Bool
  st : SysState
  tr : List Action
  processed : Nat
  deriving DecidableEq, Repr

/-- The display thread's `while(!stopped)` loop (lines 155-197) run over
a queue of events.  The loop stops after the iteration that sets
`stopped`; if the queue runs out first the thread is still blocked in
`SDL_WaitEvent` (`stopped = false`). -/
def run_loop : List DisplayEvent → SysState → LoopOut
  | [], st => { stopped := false, st := st, tr := [], processed := 0 }
  | ev :: rest, st =>
    let s := loop_iter ev st
    if s.stopped then
      { stopped := true, st := s.st, tr := s.tr, processed := 1 }
    else
      let l := run_loop rest s.st
      { stopped := l.stopped, st := l.st, tr := s.tr ++ l.tr,
        processed := l.processed + 1 }

/-- Result of a whole display-thread execution. -/
structure ThreadOut where
  st : SysState
  tr : List Action
  processed : Nat
  exited : Bool
  deriving DecidableEq, Repr

/-- `video_display_thread` (lines 127-202): start-up phase, then — unless
start-up failed — the event loop, then the clean-up tail once stopped. -/
def video_display_thread (env : InitEnv) (sizeOk : Bool)
    (events : List DisplayEvent) (st : SysState) : ThreadOut :=
  let s := video_display_startup env sizeOk st
  if s.stopped then
    let e := thread_exit s.st
    { st := e.st, tr := s.tr ++ e.tr, processed := 0, exited := true }
  else
    let l := run_loop events s.st
    if l.stopped then
      let e := thread_exit l.st
      { st := e.st, tr := s.tr ++ l.tr ++ e.tr, processed := l.processed,
        exited := true }
    else
      { st := l.st, tr := s.tr ++ l.tr, processed := l.processed, exited := false }

/-- The already-running display thread consuming the pending events of
its queue (loop plus, if it stops, the clean-up tail). -/
def renderer_drain (events : List DisplayEvent) (st : SysState) : ThreadOut :=
  let l := run_loop events st
  if l.stopped then
    let e := thread_exit l.st
    { st := e.st, tr := l.tr ++ e.tr, processed := l.processed, exited := true }
  else
    { st := l.st, tr := l.tr, processed := l.processed, exited := false }

/-- `video_display_stop_thread` (lines 207-216): read `initialized`; if
the thread is not running do nothing, else push an `event_quit`. -/
def video_display_stop_thread (st : SysState) : ExitOut :=
  if st.initialized then { st := st, tr := [.readInit, .pushQuit] }
  else { st := st, tr := [.readInit] }

/-- `video_display_create_thread` (lines 221-243): reset `display_fdbk`
to FDBK_NONE (without the lock), spawn the detached display thread, then
wait under the mutex until the feedback is no longer FDBK_NONE and
translate it to 0 / -1.  The spawned thread's start-up phase (and, on
start-up failure, its clean-up tail) runs before the caller's wait
returns. -/
def video_display_create_thread (spawnOk : Bool) (env : InitEnv) (sizeOk : Bool)
    (st : SysState) : RetOut :=
  let st0 := { st with display_fdbk := .FDBK_NONE }
  if spawnOk then
    let s := video_display_startup env sizeOk st0
    let e : ExitOut := if s.stopped then thread_exit s.st else { st := s.st, tr := [] }
    { ret := if e.st.display_fdbk = .FDBK_OK then 0 else -1, st := e.st,
      tr := [.writeFdbk .FDBK_NONE, .spawnThread true] ++ s.tr ++ e.tr ++
            [.lock, .readFdbk, .readFdbk, .unlock] }
  else
    { ret := -1, st := st0, tr := [.writeFdbk .FDBK_NONE, .spawnThread false] }

/-- `video_display_frame` (lines 249-285), the public submission entry
point.  `frame = none` is the NULL pointer.  A NULL frame requests
shutdown and returns 0 immediately.  Otherwise, if `initialized` is
false, record the frame's size and create the display thread (returning
-1 if that fails); then reset `display_fdbk` to FDBK_NONE (without the
lock), push one frame event, let the running display thread handle it,
and wait under the mutex for the feedback, returning 0 on FDBK_OK and
-1 otherwise.  The `size` argument is accepted and never read, as in
the C function. -/
def video_display_frame (frame : Option Nat) (width height size : Int)
    (spawnOk : Bool) (env : InitEnv) (sizeOk : Bool)
    (createTextureOk updateTextureOk : Bool) (st : SysState) : RetOut :=
  match frame with
  | none =>
    let s := video_display_stop_thread st
    { ret := 0, st := s.st, tr := s.tr }
  | some ptr =>
    let c : RetOut :=
      if st.initialized then { ret := 0, st := st, tr := [.readInit] }
      else
        let stSz := { st with current_width := width, current_height := height }
        let t := video_display_create_thread spawnOk env sizeOk stSz
        { ret := t.ret, st := t.st, tr := [.readInit, .writeSize] ++ t.tr }
    if c.ret < 0 then { ret := -1, st := c.st, tr := c.tr }
    else
      let st1 := { c.st with display_fdbk := .FDBK_NONE }
      let r := loop_iter (.frame createTextureOk updateTextureOk ptr width height) st1
      { ret := if r.st.display_fdbk = .FDBK_OK then 0 else -1, st := r.st,
        tr := c.tr ++ [.writeFdbk .FDBK_NONE, .pushFrame ptr width height] ++ r.tr ++
              [.lock, .readFdbk, .readFdbk, .unlock] }

/-! ### Trace observation helpers -/

/-- Is the action a push of a frame event? -/
def isPushFrame : Action → Bool
  | .pushFrame _ _ _ => true
  | _ => false

/-- Is the action a push of a quit event? -/
def isPushQuit : Action → Bool
  | .pushQuit => true
  | _ => false

/-- Is the action a condition-variable signal? -/
def isSignal : Action → Bool
  | .signal _ => true
  | _ => false

/-- Is the action a mutex acquisition? -/
def isLock : Action → Bool
  | .lock => true
  | _ => false

/-- Is the action a read of the feedback slot? -/
def isReadFdbk : Action → Bool
  | .readFdbk => true
  | _ => false

/-- Is the action the window-size change of a resize? -/
def isSetWindowSize : Action → Bool
  | .setWindowSize _ _ => true
  | _ => false

/-- Is the action a texture upload? -/
def isUpdateTexture : Action → Bool
  | .updateTexture _ _ _ => true
  | _ => false

/-- Is the action part of the redraw triple? -/
def isRedraw : Action → Bool
  | .renderClear => true
  | .renderCopy => true
  | .renderPresent => true
  | _ => false

/-- Is the action an access to the cross-thread shared variables
(`initialized`, the current size, `display_fdbk`)? -/
def isSharedAccess : Action → Bool
  | .readInit => true
  | .writeInit => true
  | .readSize => true
  | .writeSize => true
  | .readFdbk => true
  | .writeFdbk _ => true
  | _ => false

/-- The shared-variable accesses of a trace made while the feedback mutex
is not held, scanning with the current lock depth. -/
def unlockedShared : Nat → List Action → List Action
  | _, [] => []
  | d, a :: r =>
    if a = Action.lock then unlockedShared (d + 1) r
    else if a = Action.unlock then unlockedShared (d - 1) r
    else (if d = 0 ∧ isSharedAccess a then [a] else []) ++ unlockedShared d r

/-- Does some window resize occur after a texture upload in the trace? -/
def resizeAfterUpload : List Action → Bool
  | [] => false
  | a :: r => (isUpdateTexture a && r.any isSetWindowSize) || resizeAfterUpload r

/-- The four SDL resources acquired by the display thread. -/
inductive Resource where
  | subsystem
  | window
  | rendererR
  | texture
  deriving DecidableEq, Repr

/-- The resource successfully acquired by an action, if any. -/
def acqOf : Action → Option Resource
  | .sdlInitCall true => some .subsystem
  | .createWindow _ _ true => some .window
  | .createRenderer true => some .rendererR
  | .createTexture _ _ true => some .texture
  | _ => none

/-- The resource released by an action, if any. -/
def relOf : Action → Option Resource
  | .sdlQuitCall => some .subsystem
  | .destroyWindow => some .window
  | .destroyRenderer => some .rendererR
  | .destroyTexture => some .texture
  | _ => none

/-- A state with the display thread up and running at size 640 × 480,
used to instantiate the theorems below. -/
def stRun : SysState :=
  { current_width := 640, current_height := 480, initialized := true,
    display_fdbk := .FDBK_NONE, frameTex := some (640, 480),
    winOpen := true, rendererOpen := true, videoStopped := false }

/-- A fresh state, before any submission. -/
def stFresh : SysState :=
  { current_width := 0, current_height := 0, initialized := false,
    display_fdbk := .FDBK_NONE, frameTex := none,
    winOpen := false, rendererOpen := false, videoStopped := false }

/-- The all-successful SDL environment. -/
def envOK : InitEnv :=
  { sdlInitOk := true, createWindowOk := true, createRendererOk := true,
    registerEventsOk := true }

/-! ### Shape lemmas for the frame-event handler -/

/-- When the event's size equals the current size, the handler skips the
resize and goes straight to the upload. -/
lemma handle_frame_same (cOk uOk : Bool) (ptr : Nat) (w h : Int) (st : SysState)
    (hw : w = st.current_width) (hh : h = st.current_height) :
    handle_frame cOk uOk ptr w h st = upload_frame uOk ptr [.lock, .readSize] st := by
  subst hw hh
  simp [handle_frame]

/-- When the size differs and the texture rebuild succeeds, the handler
resizes (updating the current size) and then uploads. -/
lemma handle_frame_diff_ok (uOk : Bool) (ptr : Nat) (w h : Int) (st : SysState)
    (hd : w ≠ st.current_width ∨ h ≠ st.current_height) :
    handle_frame true uOk ptr w h st =
      upload_frame uOk ptr
        [.lock, .readSize, .setWindowSize w h, .destroyTexture,
         .createTexture w h true, .writeSize]
        { st with frameTex := some (w, h), current_width := w, current_height := h } := by
  simp [handle_frame, video_display_set_size, hd]

/-- When the size differs and the texture rebuild fails, the handler sets
FDBK_FAIL, signals, and stops without uploading. -/
lemma handle_frame_diff_fail (uOk : Bool) (ptr : Nat) (w h : Int) (st : SysState)
    (hd : w ≠ st.current_width ∨ h ≠ st.current_height) :
    handle_frame false uOk ptr w h st =
      { stopped := true,
        st := { st with frameTex := none, display_fdbk := .FDBK_FAIL },
        tr := [.lock, .readSize, .setWindowSize w h, .destroyTexture,
               .createTexture w h false,
               .writeFdbk .FDBK_FAIL, .signal .FDBK_FAIL, .unlock] } := by
  simp [handle_frame, video_display_set_size, hd]

/-- The handler always publishes a definite feedback value. -/
lemma handle_frame_fdbk_cases (cOk uOk : Bool) (ptr : Nat) (w h : Int) (st : SysState) :
    (handle_frame cOk uOk ptr w h st).st.display_fdbk = .FDBK_OK ∨
    (handle_frame cOk uOk ptr w h st).st.display_fdbk = .FDBK_FAIL := by
  by_cases hd : w ≠ st.current_width ∨ h ≠ st.current_height
  · cases cOk
    · rw [handle_frame_diff_fail uOk ptr w h st hd]
      right; rfl
    · rw [handle_frame_diff_ok uOk ptr w h st hd]
      cases uOk <;> simp [upload_frame]
  · push_neg at hd
    rw [handle_frame_same cOk uOk ptr w h st hd.1.symm.symm hd.2]
    cases uOk <;> simp [upload_frame]

/-- The handler's trace contains no event pushes and no redraw actions. -/
lemma handle_frame_counts (cOk uOk : Bool) (ptr : Nat) (w h : Int) (st : SysState) :
    (handle_frame cOk uOk ptr w h st).tr.countP isPushFrame = 0 ∧
    (handle_frame cOk uOk ptr w h st).tr.countP isPushQuit = 0 ∧
    (handle_frame cOk uOk ptr w h st).tr.countP isRedraw = 0 := by
  by_cases hd : w ≠ st.current_width ∨ h ≠ st.current_height
  · cases cOk
    · rw [handle_frame_diff_fail uOk ptr w h st hd]
      simp [isPushFrame, isPushQuit, isRedraw]
    · rw [handle_frame_diff_ok uOk ptr w h st hd]
      cases uOk <;> simp [upload_frame, isPushFrame, isPushQuit, isRedraw]
  · push_neg at hd
    rw [handle_frame_same cOk uOk ptr w h st hd.1 hd.2]
    cases uOk <;> simp [upload_frame, isPushFrame, isPushQuit, isRedraw]

/-- The submission path with the renderer running: read `initialized`,
reset the feedback, push one frame event, let the renderer handle it and
redraw, then read the feedback under the lock. -/
lemma video_display_frame_running_eq (ptr : Nat) (w h sz : Int) (spawnOk : Bool)
    (env : InitEnv) (sizeOk cOk uOk : Bool) (st : SysState)
    (hinit : st.initialized = true) :
    video_display_frame (some ptr) w h sz spawnOk env sizeOk cOk uOk st =
      { ret :=
          if (handle_frame cOk uOk ptr w h
                { st with display_fdbk := .FDBK_NONE }).st.display_fdbk = .FDBK_OK
          then 0 else -1,
        st := (handle_frame cOk uOk ptr w h { st with display_fdbk := .FDBK_NONE }).st,
        tr := [.readInit, .writeFdbk .FDBK_NONE, .pushFrame ptr w h] ++
              (handle_frame cOk uOk ptr w h { st with display_fdbk := .FDBK_NONE }).tr ++
              [.renderClear, .renderCopy, .renderPresent,
               .lock, .readFdbk, .readFdbk, .unlock] } := by
  simp [video_display_frame, loop_iter, hinit]

/-! ### Claim theorems -/

/-- Claim C10: two calls to `video_display_frame` that differ only in the
`size` (byte count) argument return the same result and produce the same
state and the same trace: the size parameter is never read by the
submission path or the renderer. -/
theorem size_param_irrelevant (frame : Option Nat) (w h s1 s2 : Int)
    (spawnOk : Bool) (env : InitEnv) (sizeOk cOk uOk : Bool) (st : SysState) :
    video_display_frame frame w h s1 spawnOk env sizeOk cOk uOk st =
      video_display_frame frame w h s2 spawnOk env sizeOk cOk uOk st := rfl

/-- Claim C8: every iteration of the display thread's loop ends with
exactly one redraw sequence — clear, copy, present — after the event has
been handled, whatever the event was (frame, quit, external close, a
wait failure, or an unrecognized event). -/
theorem loop_iter_redraw_spec (ev : DisplayEvent) (st : SysState) :
    ∃ pre,
      (loop_iter ev st).tr = pre ++ [.renderClear, .renderCopy, .renderPresent] ∧
      pre.countP isRedraw = 0 ∧
      (loop_iter ev st).tr.countP isRedraw = 3 := by
  cases ev with
  | frame cOk uOk ptr w h =>
    refine ⟨(handle_frame cOk uOk ptr w h st).tr, rfl, ?_, ?_⟩
    · exact (handle_frame_counts cOk uOk ptr w h st).2.2
    · have h0 := (handle_frame_counts cOk uOk ptr w h st).2.2
      simp [loop_iter, List.countP_append, h0, isRedraw]
  | quit => exact ⟨[], rfl, rfl, rfl⟩
  | externalClose => exact ⟨[.videoSetStopped], rfl, rfl, rfl⟩
  | waitFail => exact ⟨[], rfl, rfl, rfl⟩
  | other => exact ⟨[], rfl, rfl, rfl⟩

/-- Witness for claim C8 at a concrete event and state. -/
theorem loop_iter_redraw_spec_witness :
    ∃ pre,
      (loop_iter (.frame true true 1 1280 720) stRun).tr =
        pre ++ [.renderClear, .renderCopy, .renderPresent] ∧
      pre.countP isRedraw = 0 ∧
      (loop_iter (.frame true true 1 1280 720) stRun).tr.countP isRedraw = 3 :=
  loop_iter_redraw_spec (.frame true true 1 1280 720) stRun

/-- Claim C2: a frame event handled in the running loop performs exactly
one resize (one `video_display_set_size` call, i.e. one window size
change and texture rebuild) when the event's width or height differs
from the current size and zero resizes when both are equal; the resize
precedes any texture upload; when the rebuild succeeds the new
width/height become the current size, and when it fails the upload is
skipped. -/
theorem handle_frame_resize_policy (cOk uOk : Bool) (ptr : Nat) (w h : Int)
    (st : SysState) :
    ((w = st.current_width ∧ h = st.current_height) →
      (handle_frame cOk uOk ptr w h st).tr.countP isSetWindowSize = 0 ∧
      (handle_frame cOk uOk ptr w h st).st.current_width = st.current_width ∧
      (handle_frame cOk uOk ptr w h st).st.current_height = st.current_height) ∧
    ((w ≠ st.current_width ∨ h ≠ st.current_height) →
      (handle_frame cOk uOk ptr w h st).tr.countP isSetWindowSize = 1 ∧
      resizeAfterUpload (handle_frame cOk uOk ptr w h st).tr = false ∧
      (cOk = true →
        (handle_frame cOk uOk ptr w h st).st.current_width = w ∧
        (handle_frame cOk uOk ptr w h st).st.current_height = h) ∧
      (cOk = false →
        (handle_frame cOk uOk ptr w h st).tr.countP isUpdateTexture = 0)) := by
  constructor
  · rintro ⟨hw, hh⟩
    rw [handle_frame_same cOk uOk ptr w h st hw hh]
    cases uOk <;> simp [upload_frame, isSetWindowSize]
  · intro hd
    cases cOk
    · rw [handle_frame_diff_fail uOk ptr w h st hd]
      simp [isSetWindowSize, isUpdateTexture, resizeAfterUpload, isUpdateTexture]
    · rw [handle_frame_diff_ok uOk ptr w h st hd]
      cases uOk <;>
        simp [upload_frame, isSetWindowSize, isUpdateTexture, resizeAfterUpload,
          List.any]

/-- Witness for claim C2: a 640×480 → 1280×720 frame resizes exactly
once, before the upload, and a same-size frame resizes zero times. -/
theorem handle_frame_resize_policy_witness :
    (handle_frame true true 1 1280 720 stRun).tr.countP isSetWindowSize = 1 ∧
    resizeAfterUpload (handle_frame true true 1 1280 720 stRun).tr = false ∧
    (handle_frame true true 2 640 480 stRun).tr.countP isSetWindowSize = 0 := by
  refine ⟨?_, ?_, ?_⟩
  · exact ((handle_frame_resize_policy true true 1 1280 720 stRun).2 (by decide)).1
  · exact ((handle_frame_resize_policy true true 1 1280 720 stRun).2 (by decide)).2.1
  · exact ((handle_frame_resize_policy true true 2 640 480 stRun).1 (by decide)).1

/-- Claim C6: a frame event always results in exactly one condition
signal carrying a non-None feedback value; a failed resize publishes
FDBK_FAIL, skips the upload, and stops the loop; a failed upload
publishes FDBK_FAIL and stops the loop; otherwise FDBK_OK is published
and the loop continues. -/
theorem handle_frame_feedback_spec (cOk uOk : Bool) (ptr : Nat) (w h : Int)
    (st : SysState) :
    (handle_frame cOk uOk ptr w h st).tr.countP isSignal = 1 ∧
    Action.signal .FDBK_NONE ∉ (handle_frame cOk uOk ptr w h st).tr ∧
    (((w ≠ st.current_width ∨ h ≠ st.current_height) ∧ cOk = false) →
      (handle_frame cOk uOk ptr w h st).st.display_fdbk = .FDBK_FAIL ∧
      (handle_frame cOk uOk ptr w h st).tr.countP isUpdateTexture = 0 ∧
      (handle_frame cOk uOk ptr w h st).stopped = true) ∧
    ((¬((w ≠ st.current_width ∨ h ≠ st.current_height) ∧ cOk = false) ∧ uOk = false) →
      (handle_frame cOk uOk ptr w h st).st.display_fdbk = .FDBK_FAIL ∧
      (handle_frame cOk uOk ptr w h st).stopped = true) ∧
    ((¬((w ≠ st.current_width ∨ h ≠ st.current_height) ∧ cOk = false) ∧ uOk = true) →
      (handle_frame cOk uOk ptr w h st).st.display_fdbk = .FDBK_OK ∧
      (handle_frame cOk uOk ptr w h st).stopped = false) := by
  by_cases hd : w ≠ st.current_width ∨ h ≠ st.current_height
  · cases cOk
    · rw [handle_frame_diff_fail uOk ptr w h st hd]
      simp [isSignal, isUpdateTexture, hd]
    · rw [handle_frame_diff_ok uOk ptr w h st hd]
      cases uOk <;> simp [upload_frame, isSignal, isUpdateTexture, hd]
  · push_neg at hd
    rw [handle_frame_same cOk uOk ptr w h st hd.1 hd.2]
    cases uOk <;> cases cOk <;>
      simp [upload_frame, isSignal, isUpdateTexture, hd.1, hd.2]

/-- Witness for claim C6 at concrete inputs: a successful upload signals
FDBK_OK once; a failed resize signals FDBK_FAIL once with no upload. -/
theorem handle_frame_feedback_spec_witness :
    (handle_frame true true 1 640 480 stRun).tr.countP isSignal = 1 ∧
    (handle_frame true true 1 640 480 stRun).st.display_fdbk = .FDBK_OK ∧
    (handle_frame false true 1 1280 720 stRun).st.display_fdbk = .FDBK_FAIL ∧
    (handle_frame false true 1 1280 720 stRun).tr.countP isUpdateTexture = 0 := by
  refine ⟨(handle_frame_feedback_spec true true 1 640 480 stRun).1, ?_, ?_, ?_⟩
  · exact ((handle_frame_feedback_spec true true 1 640 480 stRun).2.2.2.2
      ⟨by decide, rfl⟩).1
  · exact ((handle_frame_feedback_spec false true 1 1280 720 stRun).2.2.1
      ⟨by decide, rfl⟩).1
  · exact ((handle_frame_feedback_spec false true 1 1280 720 stRun).2.2.1
      ⟨by decide, rfl⟩).2.1

/-- Claim C5: in the Starting phase the thread signals exactly once; if
SDL initialization or the initial texture build fails it publishes
FDBK_FAIL, never sets `initialized`, and terminates processing no
events; if both succeed it sets `initialized`, publishes FDBK_OK, and
enters the running loop. -/
theorem video_display_startup_spec (env : InitEnv) (sizeOk : Bool) (st : SysState)
    (events : List DisplayEvent) :
    (video_display_startup env sizeOk st).tr.countP isSignal = 1 ∧
    ((env.sdlInitOk = false ∨ env.createWindowOk = false ∨
        env.createRendererOk = false ∨ env.registerEventsOk = false ∨
        sizeOk = false) →
      (video_display_startup env sizeOk st).stopped = true ∧
      (video_display_startup env sizeOk st).st.display_fdbk = .FDBK_FAIL ∧
      (video_display_startup env sizeOk st).st.initialized = st.initialized) ∧
    ((env.sdlInitOk = true ∧ env.createWindowOk = true ∧
        env.createRendererOk = true ∧ env.registerEventsOk = true ∧
        sizeOk = true) →
      (video_display_startup env sizeOk st).stopped = false ∧
      (video_display_startup env sizeOk st).st.initialized = true ∧
      (video_display_startup env sizeOk st).st.display_fdbk = .FDBK_OK) ∧
    ((video_display_startup env sizeOk st).stopped = true →
      (video_display_thread env sizeOk events st).processed = 0 ∧
      (video_display_thread env sizeOk events st).exited = true) := by
  rcases env with ⟨i1, i2, i3, i4⟩
  cases i1 <;> cases i2 <;> cases i3 <;> cases i4 <;> cases sizeOk <;>
    simp [video_display_startup, video_display_init, video_display_set_size,
      video_display_thread, isSignal]

/-- Witness for claim C5: a failing SDL_Init publishes FDBK_FAIL and the
thread exits processing no events; the all-successful start publishes
FDBK_OK and marks the session initialized. -/
theorem video_display_startup_spec_witness :
    (video_display_startup { envOK with sdlInitOk := false } true stFresh).stopped = true ∧
    (video_display_startup { envOK with sdlInitOk := false } true stFresh).st.display_fdbk
      = .FDBK_FAIL ∧
    (video_display_thread { envOK with sdlInitOk := false } true
      [.frame true true 1 640 480] stFresh).processed = 0 ∧
    (video_display_startup envOK true stFresh).st.initialized = true := by
  refine ⟨?_, ?_, ?_, ?_⟩
  · exact ((video_display_startup_spec { envOK with sdlInitOk := false } true stFresh
      [.frame true true 1 640 480]).2.1 (by decide)).1
  · exact ((video_display_startup_spec { envOK with sdlInitOk := false } true stFresh
      [.frame true true 1 640 480]).2.1 (by decide)).2.1
  · refine ((video_display_startup_spec { envOK with sdlInitOk := false } true stFresh
      [.frame true true 1 640 480]).2.2.2 ?_).1
    exact ((video_display_startup_spec { envOK with sdlInitOk := false } true stFresh
      [.frame true true 1 640 480]).2.1 (by decide)).1
  · exact ((video_display_startup_spec envOK true stFresh
      [.frame true true 1 640 480]).2.2.1 (by decide)).2.1

/-- Claim C7: when the display thread leaves its loop it releases the
SDL resources in exactly the reverse of the acquisition order of a
successful start-up (texture, renderer, window, subsystem), clears
`initialized`, and processes no further events: an iteration that sets
`stopped` is the last one processed. -/
theorem thread_exit_release_order_spec (st st1 : SysState) (env : InitEnv)
    (sizeOk : Bool) (ev : DisplayEvent) (rest : List DisplayEvent) (s : SysState)
    (henv : env = envOK) (hsz : sizeOk = true)
    (hstop : (loop_iter ev s).stopped = true) :
    (thread_exit st).tr.filterMap relOf =
      ((video_display_startup env sizeOk st1).tr.filterMap acqOf).reverse ∧
    (thread_exit st).tr.filterMap relOf =
      [.texture, .rendererR, .window, .subsystem] ∧
    (thread_exit st).st.initialized = false ∧
    (run_loop (ev :: rest) s).processed = 1 ∧
    (run_loop (ev :: rest) s).tr = (loop_iter ev s).tr := by
  subst henv hsz
  refine ⟨?_, ?_, ?_, ?_, ?_⟩
  · simp [thread_exit, video_display_clean, video_display_startup,
      video_display_init, video_display_set_size, acqOf, relOf, envOK]
  · simp [thread_exit, video_display_clean, relOf]
  · simp [thread_exit, video_display_clean]
  · simp [run_loop, hstop]
  · simp [run_loop, hstop]

/-- Witness for claim C7 at a quit event and concrete states. -/
theorem thread_exit_release_order_spec_witness :
    (thread_exit stRun).tr.filterMap relOf =
      ((video_display_startup envOK true stFresh).tr.filterMap acqOf).reverse ∧
    (thread_exit stRun).tr.filterMap relOf =
      [.texture, .rendererR, .window, .subsystem] ∧
    (thread_exit stRun).st.initialized = false ∧
    (run_loop [.quit, .other] stRun).processed = 1 ∧
    (run_loop [.quit, .other] stRun).tr = (loop_iter .quit stRun).tr :=
  thread_exit_release_order_spec stRun stFresh envOK true .quit [.other] stRun
    rfl rfl (by decide)

/-- Claim C1: a non-null submission while the renderer is running resets
the feedback to FDBK_NONE before pushing exactly one frame event
carrying the frame pointer and its width/height, blocks until the
feedback is no longer FDBK_NONE, and returns 0 exactly when it is
FDBK_OK and -1 exactly when it is FDBK_FAIL. -/
theorem video_display_frame_running_spec (ptr : Nat) (w h sz : Int) (spawnOk : Bool)
    (env : InitEnv) (sizeOk cOk uOk : Bool) (st : SysState)
    (hinit : st.initialized = true) :
    (video_display_frame (some ptr) w h sz spawnOk env sizeOk cOk uOk st).tr.countP
        isPushFrame = 1 ∧
    (∃ post,
      (video_display_frame (some ptr) w h sz spawnOk env sizeOk cOk uOk st).tr =
        [.readInit, .writeFdbk .FDBK_NONE, .pushFrame ptr w h] ++ post) ∧
    (video_display_frame (some ptr) w h sz spawnOk env sizeOk cOk uOk st).st.display_fdbk
      ≠ .FDBK_NONE ∧
    (((video_display_frame (some ptr) w h sz spawnOk env sizeOk cOk uOk st).st.display_fdbk
        = .FDBK_OK ∧
      (video_display_frame (some ptr) w h sz spawnOk env sizeOk cOk uOk st).ret = 0) ∨
     ((video_display_frame (some ptr) w h sz spawnOk env sizeOk cOk uOk st).st.display_fdbk
        = .FDBK_FAIL ∧
      (video_display_frame (some ptr) w h sz spawnOk env sizeOk cOk uOk st).ret = -1)) := by
  rw [video_display_frame_running_eq ptr w h sz spawnOk env sizeOk cOk uOk st hinit]
  have hc := handle_frame_counts cOk uOk ptr w h { st with display_fdbk := .FDBK_NONE }
  have hf := handle_frame_fdbk_cases cOk uOk ptr w h { st with display_fdbk := .FDBK_NONE }
  refine ⟨?_, ?_, ?_, ?_⟩
  · simp [List.countP_append, hc.1, isPushFrame]
  · exact ⟨_, rfl⟩
  · rcases hf with hf | hf <;> simp [hf]
  · rcases hf with hf | hf
    · left; simp [hf]
    · right; simp [hf]

/-- Witness for claim C1: a same-size frame submitted to the running
renderer of `stRun`. -/
theorem video_display_frame_running_spec_witness :
    (video_display_frame (some 1) 640 480 921600 true envOK true true true
      stRun).tr.countP isPushFrame = 1 ∧
    (video_display_frame (some 1) 640 480 921600 true envOK true true true
      stRun).st.display_fdbk ≠ .FDBK_NONE :=
  ⟨(video_display_frame_running_spec 1 640 480 921600 true envOK true true true
      stRun rfl).1,
   (video_display_frame_running_spec 1 640 480 921600 true envOK true true true
      stRun rfl).2.2.1⟩

/-- Claim C3: a null-frame submission returns 0 immediately, never
touches the feedback mutex or slot, leaves the caller-visible state
unchanged, pushes one quit event exactly when `initialized` is true (and
is a pure no-op otherwise), and the renderer consuming that quit event
stops and clears `initialized`, so no renderer thread is left running. -/
theorem video_display_frame_null_spec (w h sz : Int) (spawnOk : Bool)
    (env : InitEnv) (sizeOk cOk uOk : Bool) (st : SysState) :
    (video_display_frame none w h sz spawnOk env sizeOk cOk uOk st).ret = 0 ∧
    (video_display_frame none w h sz spawnOk env sizeOk cOk uOk st).st = st ∧
    (video_display_frame none w h sz spawnOk env sizeOk cOk uOk st).tr.countP isLock = 0 ∧
    (video_display_frame none w h sz spawnOk env sizeOk cOk uOk st).tr.countP
      isReadFdbk = 0 ∧
    (st.initialized = true →
      (video_display_frame none w h sz spawnOk env sizeOk cOk uOk st).tr.countP
        isPushQuit = 1 ∧
      (renderer_drain [.quit] st).exited = true ∧
      (renderer_drain [.quit] st).st.initialized = false ∧
      (renderer_drain [.quit] st).processed = 1) ∧
    (st.initialized = false →
      (video_display_frame none w h sz spawnOk env sizeOk cOk uOk st).tr = [.readInit]) := by
  cases hinit : st.initialized <;>
    simp [video_display_frame, video_display_stop_thread, renderer_drain, run_loop,
      loop_iter, thread_exit, video_display_clean, hinit, isLock, isReadFdbk,
      isPushQuit]

/-- Witness for claim C3: a null submission on the running state and on
the fresh state. -/
theorem video_display_frame_null_spec_witness :
    (video_display_frame none 0 0 0 true envOK true true true stRun).ret = 0 ∧
    (video_display_frame none 0 0 0 true envOK true true true stRun).tr.countP
      isPushQuit = 1 ∧
    (renderer_drain [.quit] stRun).st.initialized = false ∧
    (video_display_frame none 0 0 0 true envOK true true true stFresh).tr = [.readInit] :=
  ⟨(video_display_frame_null_spec 0 0 0 true envOK true true true stRun).1,
   ((video_display_frame_null_spec 0 0 0 true envOK true true true stRun).2.2.2.2.1
      rfl).1,
   ((video_display_frame_null_spec 0 0 0 true envOK true true true stRun).2.2.2.2.1
      rfl).2.2.1,
   (video_display_frame_null_spec 0 0 0 true envOK true true true stFresh).2.2.2.2.2
      rfl⟩

/-- Claim C4: a first submission (with `initialized` false) records the
frame's size, spawns the display thread, and blocks until the start-up
feedback; when start-up fails it returns -1 with no frame event pushed,
`initialized` stays false, and a following submission spawns the thread
again. -/
theorem video_display_frame_startup_fail_spec (ptr : Nat) (w h sz : Int)
    (env : InitEnv) (sizeOk cOk uOk : Bool) (st : SysState)
    (hinit : st.initialized = false)
    (hfail : env.sdlInitOk = false ∨ env.createWindowOk = false ∨
      env.createRendererOk = false ∨ env.registerEventsOk = false ∨
      sizeOk = false) :
    (video_display_frame (some ptr) w h sz true env sizeOk cOk uOk st).ret = -1 ∧
    (video_display_frame (some ptr) w h sz true env sizeOk cOk uOk st).st.initialized
      = false ∧
    (video_display_frame (some ptr) w h sz true env sizeOk cOk uOk st).st.display_fdbk
      = .FDBK_FAIL ∧
    (video_display_frame (some ptr) w h sz true env sizeOk cOk uOk st).st.current_width
      = w ∧
    (video_display_frame (some ptr) w h sz true env sizeOk cOk uOk st).st.current_height
      = h ∧
    (video_display_frame (some ptr) w h sz true env sizeOk cOk uOk st).tr.countP
      isPushFrame = 0 ∧
    Action.spawnThread true ∈
      (video_display_frame (some ptr) w h sz true env sizeOk cOk uOk st).tr ∧
    Action.spawnThread true ∈
      (video_display_frame (some ptr) w h sz true env sizeOk cOk uOk
        (video_display_frame (some ptr) w h sz true env sizeOk cOk uOk st).st).tr := by
  rcases env with ⟨i1, i2, i3, i4⟩
  cases i1 <;> cases i2 <;> cases i3 <;> cases i4 <;> cases sizeOk <;>
    simp_all [video_display_frame, video_display_create_thread,
      video_display_startup, video_display_init, video_display_set_size,
      thread_exit, video_display_clean, isPushFrame]

/-- Witness for claim C4: first submission on the fresh state with a
failing SDL_Init. -/
theorem video_display_frame_startup_fail_spec_witness :
    (video_display_frame (some 7) 640 480 921600 true
      { envOK with sdlInitOk := false } true true true stFresh).ret = -1 ∧
    (video_display_frame (some 7) 640 480 921600 true
      { envOK with sdlInitOk := false } true true true stFresh).st.initialized = false ∧
    (video_display_frame (some 7) 640 480 921600 true
      { envOK with sdlInitOk := false } true true true stFresh).tr.countP
      isPushFrame = 0 :=
  ⟨(video_display_frame_startup_fail_spec 7 640 480 921600
      { envOK with sdlInitOk := false } true true true stFresh rfl
      (by decide)).1,
   (video_display_frame_startup_fail_spec 7 640 480 921600
      { envOK with sdlInitOk := false } true true true stFresh rfl
      (by decide)).2.1,
   (video_display_frame_startup_fail_spec 7 640 480 921600
      { envOK with sdlInitOk := false } true true true stFresh rfl
      (by decide)).2.2.2.2.2.1⟩

/-! ### Locking discipline (claim C9) -/

/-- Final mutex depth after a trace, starting from depth `d`. -/
def lockDepth : Nat → List Action → Nat
  | d, [] => d
  | d, a :: r =>
    if a = Action.lock then lockDepth (d + 1) r
    else if a = Action.unlock then lockDepth (d - 1) r
    else lockDepth d r

/-- `unlockedShared` distributes over concatenation, threading the depth. -/
lemma unlockedShared_append (xs ys : List Action) (d : Nat) :
    unlockedShared d (xs ++ ys) =
      unlockedShared d xs ++ unlockedShared (lockDepth d xs) ys := by
  induction xs generalizing d with
  | nil => simp [unlockedShared, lockDepth]
  | cons a r ih =>
    simp only [List.cons_append, unlockedShared, lockDepth]
    split_ifs <;> simp [ih]

/-- `lockDepth` composes over concatenation. -/
lemma lockDepth_append (xs ys : List Action) (d : Nat) :
    lockDepth d (xs ++ ys) = lockDepth (lockDepth d xs) ys := by
  induction xs generalizing d with
  | nil => simp [lockDepth]
  | cons a r ih =>
    simp only [List.cons_append, lockDepth]
    split_ifs <;> simp [ih]

/-- The Starting phase performs all its shared accesses under the mutex. -/
lemma startup_unlockedShared (env : InitEnv) (sizeOk : Bool) (st : SysState) :
    unlockedShared 0 (video_display_startup env sizeOk st).tr = [] := by
  rcases env with ⟨i1, i2, i3, i4⟩
  cases i1 <;> cases i2 <;> cases i3 <;> cases i4 <;> cases sizeOk <;>
    simp [video_display_startup, video_display_init, video_display_set_size,
      unlockedShared, isSharedAccess]

/-- The frame-event handler performs all its shared accesses under the
mutex, and leaves the mutex released. -/
lemma handle_frame_locking (cOk uOk : Bool) (ptr : Nat) (w h : Int) (st : SysState) :
    unlockedShared 0 (handle_frame cOk uOk ptr w h st).tr = [] ∧
    lockDepth 0 (handle_frame cOk uOk ptr w h st).tr = 0 := by
  by_cases hd : w ≠ st.current_width ∨ h ≠ st.current_height
  · cases cOk
    · rw [handle_frame_diff_fail uOk ptr w h st hd]
      simp [unlockedShared, lockDepth, isSharedAccess]
    · rw [handle_frame_diff_ok uOk ptr w h st hd]
      cases uOk <;> simp [upload_frame, unlockedShared, lockDepth, isSharedAccess]
  · push_neg at hd
    rw [handle_frame_same cOk uOk ptr w h st hd.1 hd.2]
    cases uOk <;> simp [upload_frame, unlockedShared, lockDepth, isSharedAccess]

/-- The display thread's exit clears `initialized` without the mutex;
it makes no other shared access. -/
lemma thread_exit_unlockedShared (st : SysState) :
    unlockedShared 0 (thread_exit st).tr = [Action.writeInit] := by
  simp [thread_exit, video_display_clean, unlockedShared, isSharedAccess]

/-- On the running path, the submission API's unlocked shared accesses
are exactly its read of `initialized` and its reset of the feedback slot
to FDBK_NONE; everything else happens under the mutex. -/
lemma frame_call_unlockedShared (ptr : Nat) (w h sz : Int) (spawnOk : Bool)
    (env : InitEnv) (sizeOk cOk uOk : Bool) (st : SysState)
    (hinit : st.initialized = true) :
    unlockedShared 0
        (video_display_frame (some ptr) w h sz spawnOk env sizeOk cOk uOk st).tr =
      [Action.readInit, Action.writeFdbk .FDBK_NONE] := by
  rw [video_display_frame_running_eq ptr w h sz spawnOk env sizeOk cOk uOk st hinit]
  have h1 := handle_frame_locking cOk uOk ptr w h { st with display_fdbk := .FDBK_NONE }
  simp [unlockedShared_append, lockDepth_append, h1.1, h1.2, unlockedShared,
    lockDepth, isSharedAccess]

/-- Claim C9, counterexample to the claim as stated: on a concrete
running-state submission the trace contains shared accesses made without
holding the feedback mutex (the API's read of `initialized` and its
reset of the feedback slot before enqueuing), so not every access to
the shared state is performed under the lock. -/
theorem locking_claim_counterexample :
    unlockedShared 0 (video_display_frame (some 1) 640 480 921600 true envOK true
      true true stRun).tr ≠ [] := by decide

/-- Claim C9 as amended: the renderer's Starting-phase and frame-event
accesses to the shared state all happen under the feedback mutex, and
the caller's blocking reads are under the mutex; but the submission
API reads `initialized` and resets the feedback result to FDBK_NONE
without holding the lock, and the exiting thread clears `initialized`
without the lock. -/
theorem locking_discipline_amended (env : InitEnv) (sizeOk cOk uOk : Bool)
    (ptr : Nat) (w h sz : Int) (spawnOk : Bool) (st stS stF stE : SysState)
    (hinit : st.initialized = true) :
    unlockedShared 0 (video_display_startup env sizeOk stS).tr = [] ∧
    unlockedShared 0 (handle_frame cOk uOk ptr w h stF).tr = [] ∧
    unlockedShared 0
        (video_display_frame (some ptr) w h sz spawnOk env sizeOk cOk uOk st).tr =
      [Action.readInit, Action.writeFdbk .FDBK_NONE] ∧
    unlockedShared 0 (thread_exit stE).tr = [Action.writeInit] :=
  ⟨startup_unlockedShared env sizeOk stS,
   (handle_frame_locking cOk uOk ptr w h stF).1,
   frame_call_unlockedShared ptr w h sz spawnOk env sizeOk cOk uOk st hinit,
   thread_exit_unlockedShared stE⟩

/-- Witness for the amended claim C9 at concrete inputs. -/
theorem locking_discipline_amended_witness :
    unlockedShared 0 (video_display_startup envOK true stFresh).tr = [] ∧
    unlockedShared 0 (handle_frame true true 1 1280 720 stRun).tr = [] ∧
    unlockedShared 0
        (video_display_frame (some 1) 640 480 921600 true envOK true true true
          stRun).tr = [Action.readInit, Action.writeFdbk .FDBK_NONE] ∧
    unlockedShared 0 (thread_exit stRun).tr = [Action.writeInit] :=
  locking_discipline_amended envOK true true true 1 640 480 921600 true stRun
    stFresh stRun stRun rfl

end VideoDisplay
